import Mathlib

/-!
Shallow embedding of the IWSVA selenium-test verification/workflow layer
(`src/frameworks/verification/*.py`, `src/frameworks/workflows/*.py`).

Python functions are translated to executable Lean definitions.  A value of
type `Except PyErr α` models a Python call that either returns normally
(`.ok`) or raises (`.error`); collaborator behaviour (SSH reads, browser
actions, clocks, lock-file observations) is passed in explicitly as an
environment record, so theorems can quantify over every collaborator
behaviour.  Regex searches in the source use only patterns of the shape
`lit₁.*lit₂.*…|…` plus the capture pattern
`Version changed from ([\d.]+) to ([\d.]+)`; both are embedded exactly
(case-insensitive search per line, leftmost match, greedy groups with
backtracking).
-/

namespace IWSVA

/-- Python exception values: the dynamic class distinction the workflows
branch on (`except ValueError` vs `except FileNotFoundError` vs
`except Exception`) plus the message text (`str(e)`). -/
inductive PyErr where
  | valueError (msg : String)
  | fileNotFound (msg : String)
  | other (msg : String)
deriving DecidableEq, Repr

/-- `str(e)` for an exception value. -/
def PyErr.msg : PyErr → String
  | .valueError m => m
  | .fileNotFound m => m
  | .other m => m

/-- Python truthiness of an optional string (`if s:` is false for `None`
and for the empty string). -/
def strTruthy : Option String → Bool
  | none => false
  | some s => !s.data.isEmpty

/-- Characters Python `str.strip()` removes (ASCII whitespace). -/
def isPySpace (c : Char) : Bool :=
  c == ' ' || c == Char.ofNat 9 || c == Char.ofNat 10 || c == Char.ofNat 13 ||
  c == Char.ofNat 11 || c == Char.ofNat 12

/-- Python `str.strip()` on a character list. -/
def pyStrip (l : List Char) : List Char :=
  ((l.dropWhile isPySpace).reverse.dropWhile isPySpace).reverse

/-- ASCII lowercasing of a character list (`str.lower()`). -/
def lowerChars (l : List Char) : List Char := l.map Char.toLower

/-- ASCII lowercasing of a string. -/
def pyLowerStr (s : String) : String := (lowerChars s.data).asString

/-- Python `str.split(ch)` on a character list: the separator-delimited
fragments, with `[[]]` for the empty input. -/
def splitOnChar (ch : Char) : List Char → List (List Char)
  | [] => [[]]
  | c :: rest =>
    if c == ch then [] :: splitOnChar ch rest
    else
      match splitOnChar ch rest with
      | [] => [[c]]
      | l :: ls => (c :: l) :: ls

/-- Python `sep.join(xs)` for strings. -/
def joinStr (sep : String) : List String → String
  | [] => ""
  | [x] => x
  | x :: xs => x ++ sep ++ joinStr sep xs

/-- A single-quote character, written via its code point. -/
def sq : String := String.singleton (Char.ofNat 39)

/-- Python `repr` of a list of strings, e.g. `[<q>a<q>, <q>b<q>]` with
single quotes; used verbatim in failure messages built with f-strings. -/
def pyListRepr (xs : List String) : String :=
  "[" ++ joinStr ", " (xs.map (fun s => sq ++ s ++ sq)) ++ "]"

/-! ## Pattern search machinery (Python `re.search`, `re.IGNORECASE`)

Every search pattern the log verifier builds is an alternation of chains of
literal fragments separated by `.*` (on a single line, `.` never meets a
newline).  A chain `l₁.*l₂.*…` matches a line iff the literals occur in
order, each starting at or after the end of the previous one; taking the
leftmost occurrence of each literal in turn is complete for that question.
Case-insensitivity is realised by lowercasing both line and literals. -/

/-- `listPrefix p s` : `p` is a prefix of `s` (character lists). -/
def listPrefix : List Char → List Char → Bool
  | [], _ => true
  | _ :: _, [] => false
  | p :: ps, c :: cs => p == c && listPrefix ps cs

/-- Drop everything up to and including the first occurrence of `pat` in
`hay`; `none` when `pat` never occurs. -/
def dropAfter (hay pat : List Char) : Option (List Char) :=
  match hay with
  | [] => if pat.isEmpty then some [] else none
  | _ :: rest =>
    if listPrefix pat hay then some (hay.drop pat.length)
    else dropAfter rest pat

/-- One alternative `l₁.*l₂.*…` of a search pattern, as the list of its
literal fragments, matched against a character list. -/
def chainSearch : List String → List Char → Bool
  | [], _ => true
  | p :: ps, s =>
    match dropAfter s p.toList with
    | some rest => chainSearch ps rest
    | none => false

/-- `re.search` of an alternation of literal chains against one line
(both sides already lowercased by the caller). -/
def reSearch (alts : List (List String)) (line : List Char) : Bool :=
  alts.any (fun chain => chainSearch chain line)

/-- `LogVerification.search_pattern` restricted to the pattern shapes the
source builds: split the content on newlines, keep the lines the pattern
matches case-insensitively, return them stripped. -/
def search_pattern (alts : List (List String)) (content : String) : List String :=
  ((splitOnChar (Char.ofNat 10) content.data).filter
    (fun line => reSearch alts (lowerChars line))).map (fun line => (pyStrip line).asString)

/-- `LogVerification.verify_update_started`: pattern
`{id}.*update.*start|Starting.*{id}.*update`, lowercased. -/
def started_alts (component_id : String) : List (List String) :=
  [[pyLowerStr component_id, "update", "start"],
   ["starting", pyLowerStr component_id, "update"]]

/-- `LogVerification.COMPONENT_SUCCESS_PATTERNS`, each pattern lowered and
split into its two alternative chains. -/
def COMPONENT_SUCCESS_PATTERNS : List (String × List (List String)) :=
  [("PTN", [["ptn", "update", "success"], ["pattern", "update", "complete"]]),
   ("SPYWARE", [["spyware", "update", "success"], ["spyware", "update", "complete"]]),
   ("BOT", [["bot", "update", "success"], ["bot", "update", "complete"]]),
   ("ENG", [["engine", "update", "success"], ["scan engine", "update", "complete"]]),
   ("ATSEENG", [["atse", "update", "success"], ["advanced threat", "update", "complete"]]),
   ("TMUFEENG", [["tmufe", "update", "success"], ["url filter", "update", "complete"]])]

/-- Success pattern used by `verify_update_success`: the component-specific
entry when present, else the generic `{id}.*update.*success`. -/
def success_alts (component_id : String) : List (List String) :=
  match COMPONENT_SUCCESS_PATTERNS.lookup component_id with
  | some alts => alts
  | none => [[pyLowerStr component_id, "update", "success"]]

/-- Error pattern used by `verify_no_errors_for_component`:
`{id}.*ERROR|FAIL|Exception|failed|error` — the alternation binds loosely,
so only the first alternative mentions the component id. -/
def component_error_alts (component_id : String) : List (List String) :=
  [[pyLowerStr component_id, "error"], ["fail"], ["exception"], ["failed"], ["error"]]

/-- `LogVerification.verify_update_started` on given log content:
`(started, matching_lines)`. -/
def verify_update_started (component_id : String) (content : String) :
    Bool × List String :=
  let ms := search_pattern (started_alts component_id) content
  (!ms.isEmpty, ms)

/-- `LogVerification.verify_update_success` on given log content:
`(success, matching_lines)`. -/
def verify_update_success (component_id : String) (content : String) :
    Bool × List String :=
  let ms := search_pattern (success_alts component_id) content
  (!ms.isEmpty, ms)

/-- `LogVerification.verify_no_errors_for_component` on given log content:
`(no_errors, error_lines)`. -/
def verify_no_errors_for_component (component_id : String) (content : String) :
    Bool × List String :=
  let errors := search_pattern (component_error_alts component_id) content
  (errors.isEmpty, errors)

/-! ## Version-change extraction

Pattern `Version changed from ([\d.]+) to ([\d.]+)` searched per line with
`re.IGNORECASE`; `re.search` takes the leftmost start position at which the
whole pattern matches, the first group is greedy but backtracks so that
a literal space-`to`-space and a nonempty second group can follow. -/

/-- Characters matched by the class `[\d.]`. -/
def isDigitOrDot (c : Char) : Bool := c.isDigit || c == '.'

/-- Backtracking over the first group: `g1rev` is the current (reversed)
candidate for group 1, `rest` the remaining input after it.  Try the
longest candidate first; on failure move its last character back onto the
input, as the regex engine shrinks a greedy `[\d.]+`. -/
def vc_try : List Char → List Char → Option (String × String)
  | [], _ => none
  | c :: g1rev, rest =>
    let attempt :=
      if listPrefix (" to ".toList) rest then
        let g2 := (rest.drop 4).takeWhile isDigitOrDot
        if g2.isEmpty then none
        else some (((c :: g1rev).reverse).asString, g2.asString)
      else none
    match attempt with
    | some r => some r
    | none => vc_try g1rev (c :: rest)

/-- Try to match the whole version-change pattern anchored at the head of
`s` (already lowercased): the literal `version changed from `, a greedy
digits-and-dots group, ` to `, a second digits-and-dots group. -/
def vc_matchAt (s : List Char) : Option (String × String) :=
  if listPrefix ("version changed from ".toList) s then
    let rest := s.drop 21
    let run := rest.takeWhile isDigitOrDot
    if run.isEmpty then none
    else vc_try run.reverse (rest.drop run.length)
  else none

/-- Leftmost search: try every start position from the left. -/
def vc_search : List Char → Option (String × String)
  | [] => none
  | c :: rest =>
    match vc_matchAt (c :: rest) with
    | some r => some r
    | none => vc_search rest

/-- One record produced by `extract_version_change` (dict keys
`from_version`, `to_version`, `log_line`). -/
structure VersionChange where
  from_version : String
  to_version : String
  log_line : String
deriving DecidableEq, Repr

/-- `LogVerification.extract_version_change` on given log content. -/
def extract_version_change (content : String) : List VersionChange :=
  (splitOnChar (Char.ofNat 10) content.data).filterMap (fun line =>
    match vc_search (lowerChars line) with
    | some (f, t) => some ⟨f, t, (pyStrip line).asString⟩
    | none => none)

/-! ## `LogVerification.verify_complete_update_cycle` -/

/-- One entry of the `checks` dict holding a passed flag and matched lines
(`update_started`, `update_completed`) or error lines (`no_errors`). -/
structure CheckBL where
  passed : Bool
  lines : List String
deriving DecidableEq, Repr

/-- The `version_changed` entry of the `checks` dict. -/
structure VersionCheck where
  passed : Bool
  expected : String
  changes : List VersionChange
deriving DecidableEq, Repr

/-- Result dict of `verify_complete_update_cycle`. -/
structure CycleResult where
  component_id : String
  success : Bool
  update_started : CheckBL
  update_completed : CheckBL
  no_errors : CheckBL
  version_changed : Option VersionCheck
  message : String
deriving DecidableEq, Repr

/-- `LogVerification.verify_complete_update_cycle` on explicit log content.
Mirrors the source exactly: check 4 folds `version_match` into
`result[ <q>success<q> ]`, but the subsequent overall-success recomputation
overwrites that field with the conjunction of only the first three checks. -/
def verify_complete_update_cycle (component_id : String)
    (expected_version : Option String) (content : String) : CycleResult :=
  let (started, start_lines) := verify_update_started component_id content
  let (completed, success_lines) := verify_update_success component_id content
  let (no_err, error_lines) := verify_no_errors_for_component component_id content
  let version_changed : Option VersionCheck :=
    if strTruthy expected_version then
      let ev := expected_version.getD ""
      let changes := extract_version_change content
      let version_match := changes.any (fun c => c.to_version == ev)
      some { passed := version_match, expected := ev, changes := changes }
    else none
  -- dead store in the source: success := success ∧ version_match, clobbered next
  let _success_after_check4 :=
    match version_changed with
    | some v => true && v.passed
    | none => true
  let success := started && completed && no_err
  let failed_checks : List String :=
    (if started then [] else ["update_started"]) ++
    (if completed then [] else ["update_completed"]) ++
    (if no_err then [] else ["no_errors"]) ++
    (match version_changed with
     | some v => if v.passed then [] else ["version_changed"]
     | none => [])
  let message :=
    if success then component_id ++ " update cycle verified successfully"
    else component_id ++ " update cycle verification failed: " ++ pyListRepr failed_checks
  { component_id := component_id
    success := success
    update_started := ⟨started, start_lines⟩
    update_completed := ⟨completed, success_lines⟩
    no_errors := ⟨no_err, error_lines⟩
    version_changed := version_changed
    message := message }

/-! ## Backend verification (`backend_verification.py`)

The remote filesystem is abstracted to the outcome of the one SSH read the
code performs: `iniFile : Except PyErr String` is what `ssh.read_file` on
the backend config file does (`.error (.fileNotFound _)` when the file is
missing), and a lock-file observation trace `Nat → Bool` is what
`check_lock_file_exists` reports at each elapsed second (that helper never
raises: `ssh.file_exists` catches every exception and returns `False`). -/

/-- `BackendVerification.COMPONENT_INI_KEYS`: the nine registered
component ids and their config keys. -/
def COMPONENT_INI_KEYS : List (String × String) :=
  [("PTN", "PTNVersion"),
   ("SPYWARE", "SpywareVersion"),
   ("BOT", "BotVersion"),
   ("ITP", "ITPVersion"),
   ("ITE", "ITEVersion"),
   ("ICRCAGENT", "ICRCAgentVersion"),
   ("ENG", "EngineVersion"),
   ("ATSEENG", "ATSEEngineVersion"),
   ("TMUFEENG", "TMUFEEngineVersion")]

/-- `BackendVerification.parse_ini_file`: split on newlines, strip, skip
blanks and `#`/`;` comments, split each remaining line at the first `=`,
strip key and value; assignments in file order (a dict write per line). -/
def parse_ini_file (ini_content : String) : List (String × String) :=
  (splitOnChar (Char.ofNat 10) ini_content.data).filterMap (fun raw =>
    let line := pyStrip raw
    if line.isEmpty || line.head? == some '#' || line.head? == some ';' then none
    else
      match splitOnChar '=' line with
      | [] => none
      | [_] => none
      | key :: rest =>
        some ((pyStrip key).asString,
          (pyStrip (joinStr "=" (rest.map List.asString)).data).asString))

/-- `dict.get` over the parsed assignments: the last write to a key wins. -/
def iniGet (entries : List (String × String)) (key : String) : Option String :=
  entries.reverse.lookup key

/-- `BackendVerification.get_ini_file_content`: performs the SSH read and
re-raises `FileNotFoundError` (and lets any other exception propagate). -/
def get_ini_file_content (iniFile : Except PyErr String) : Except PyErr String :=
  iniFile

/-- `BackendVerification.get_component_version_from_ini`: unknown ids give
`None` without raising; any exception from the file read (including a
missing file) is caught and also gives `None`; otherwise the parsed value
of the descriptor key, `None` when absent. -/
def get_component_version_from_ini (component_id : String)
    (iniFile : Except PyErr String) : Except PyErr (Option String) :=
  match COMPONENT_INI_KEYS.lookup component_id with
  | none => .ok none
  | some ini_key =>
    match get_ini_file_content iniFile with
    | .error _ => .ok none
    | .ok content => .ok (iniGet (parse_ini_file content) ini_key)

/-! ## Lock-file polling (`wait_for_lock_file_removal`)

Idealised timing: each `check_lock_file_exists` call is instantaneous and
each `time.sleep(check_interval)` advances the clock by exactly
`check_interval` seconds, so polls happen at elapsed times `0, i, 2i, …`.
The loop guard is `elapsed < timeout` with `elapsed` starting at `0`;
structural fuel (`timeout.toNat + 1`) dominates the iteration count as soon
as the interval is positive. -/

/-- Loop body of `wait_for_lock_file_removal`:
returns `(result, elapsed at return, number of lock checks performed)`. -/
def wait_go (lock : Nat → Bool) (timeout : Int) (check_interval : Nat) :
    Nat → Nat → Bool × Nat × Nat
  | 0, elapsed => (false, elapsed, 0)
  | fuel + 1, elapsed =>
    if (elapsed : Int) < timeout then
      if !lock elapsed then (true, elapsed, 1)
      else
        let r := wait_go lock timeout check_interval fuel (elapsed + check_interval)
        (r.1, r.2.1, r.2.2 + 1)
    else (false, elapsed, 0)

/-- `BackendVerification.wait_for_lock_file_removal` over a lock
observation trace: `(result, total blocked seconds, polls performed)`. -/
def wait_for_lock_file_removal (lock : Nat → Bool) (timeout : Int)
    (check_interval : Nat) : Bool × Nat × Nat :=
  wait_go lock timeout check_interval (timeout.toNat + 1) 0

/-! ## Rollback capability registry (`rollback_workflow.py`) -/

/-- `RollbackWorkflow.ROLLBACK_SUPPORTED`. -/
def ROLLBACK_SUPPORTED : List (String × Bool) :=
  [("PTN", true),
   ("SPYWARE", true),
   ("BOT", true),
   ("ITP", true),
   ("ITE", true),
   ("ICRCAGENT", true),
   ("ENG", true),
   ("ATSEENG", true),
   ("TMUFEENG", false)]

/-- `RollbackWorkflow.ROLLBACK_TIMEOUTS` (seconds). -/
def ROLLBACK_TIMEOUTS : List (String × Int) :=
  [("PTN", 180),
   ("SPYWARE", 180),
   ("BOT", 180),
   ("ITP", 180),
   ("ITE", 180),
   ("ICRCAGENT", 180),
   ("ENG", 360),
   ("ATSEENG", 300),
   ("TMUFEENG", 0)]

/-- `RollbackWorkflow.can_rollback`: a `dict.get` with default `False`;
total, never raises. -/
def can_rollback (component_id : String) : Bool :=
  (ROLLBACK_SUPPORTED.lookup component_id).getD false

/-- `UpdateWorkflow.UPDATE_TIMEOUTS` (seconds). -/
def UPDATE_TIMEOUTS : List (String × Int) :=
  [("PTN", 300),
   ("SPYWARE", 300),
   ("BOT", 300),
   ("ITP", 300),
   ("ITE", 300),
   ("ICRCAGENT", 300),
   ("ENG", 720),
   ("ATSEENG", 600),
   ("TMUFEENG", 600)]

/-- `_get_component_version_safe` (identical in both workflow classes):
`None` when no backend verifier is configured, the caught-and-`None`
version read otherwise; this helper can never raise. -/
def get_component_version_safe (hasBackend : Bool)
    (iniFile : Except PyErr String) (component_id : String) : Option String :=
  if hasBackend then
    match get_component_version_from_ini component_id iniFile with
    | .ok v => v
    | .error _ => none
  else none

/-! ## Update workflow (`update_workflow.py`)

Collaborator behaviour for one `execute_normal_update` call.  Each call
site the body can reach gets its own field, so a quantification over the
environment covers every behaviour of the collaborators, including raising
at any step.  Wall-clock readings that only feed the result record are the
fields `elapsed` (the value of `time.time() - start_time` at whichever
point the record is finalised) and `endTimeStr` (`datetime.now()` then);
the ISO timestamps stored inside the pre/post sub-dicts are not modelled,
a sub-dict is `none` (left `{}`) or `some v` with its version value. -/
structure UpdateEnv where
  hasBackend : Bool
  hasLog : Bool
  iniPre : Except PyErr String
  iniPost : Except PyErr String
  navigate : Except PyErr Unit
  pageTitle : Except PyErr Unit
  lock : Nat → Bool
  logTail : Except PyErr String
  elapsed : Nat
  endTimeStr : String

/-- Result dict of `execute_normal_update`.  `end_time` and `error` model
dict keys that are absent (`none`) until assigned. -/
structure UpdateResult where
  component_id : String
  update_type : String
  success : Bool
  message : String
  pre_verification : Option (Option String)
  post_verification : Option (Option String)
  log_verification : Option CycleResult
  duration : Nat
  end_time : Option String
  error : Option String
deriving DecidableEq, Repr

/-- The `try:` block of `execute_normal_update`.  `.ok` is a normal
return (including the early timeout return), `.error` carries the raised
exception together with the result dict as mutated so far, which the
`except` handler keeps. -/
def update_try (env : UpdateEnv) (component_id : String)
    (verify_before verify_after verify_logs : Bool) (timeoutArg : Option Int) :
    Except (PyErr × UpdateResult) UpdateResult :=
  let r0 : UpdateResult :=
    { component_id := component_id
      update_type := "normal"
      success := false
      message := ""
      pre_verification := none
      post_verification := none
      log_verification := none
      duration := 0
      end_time := none
      error := none }
  -- Step 1: pre-update verification (the safe getter cannot raise)
  let r1 :=
    if verify_before && env.hasBackend then
      { r0 with pre_verification := some (get_component_version_safe env.hasBackend env.iniPre component_id) }
    else r0
  -- Step 2: navigate + page-title verification
  match env.navigate with
  | .error e => .error (e, r1)
  | .ok _ =>
  match env.pageTitle with
  | .error e => .error (e, r1)
  | .ok _ =>
  -- Step 3: trigger (placeholder `pass` in the source, cannot raise)
  -- Step 4: monitor progress; `timeout or UPDATE_TIMEOUTS.get(id, 600)`
  let update_timeout : Int :=
    match timeoutArg with
    | some t => if t == 0 then (UPDATE_TIMEOUTS.lookup component_id).getD 600 else t
    | none => (UPDATE_TIMEOUTS.lookup component_id).getD 600
  if env.hasBackend &&
      !(wait_for_lock_file_removal env.lock update_timeout 5).1 then
    -- early `return result`: duration and end_time stay unset
    .ok { r1 with success := false
                  message := "Update timeout after " ++ toString update_timeout ++ "s" }
  else
  -- (without a backend the UI fallback sleeps and returns True)
  -- Step 5: post-update verification (safe getter, cannot raise)
  let r2 :=
    if verify_after && env.hasBackend then
      { r1 with post_verification := some (get_component_version_safe env.hasBackend env.iniPost component_id) }
    else r1
  -- Step 6: log verification; `get_log_tail` re-raises read failures
  match (if verify_logs && env.hasLog then env.logTail.map some else .ok none) with
  | .error e => .error (e, r2)
  | .ok tail =>
  let r3 :=
    match tail with
    | some content =>
      { r2 with log_verification := some (verify_complete_update_cycle component_id none content) }
    | none => r2
  .ok { r3 with duration := env.elapsed
                end_time := some env.endTimeStr
                success := true
                message := component_id ++ " update completed successfully" }

/-- `UpdateWorkflow.execute_normal_update`: the `try:` block wrapped in
`except Exception`, which converts any raised exception into failure
fields on the partially-built record. -/
def execute_normal_update (env : UpdateEnv) (component_id : String)
    (verify_before verify_after verify_logs : Bool) (timeoutArg : Option Int) :
    UpdateResult :=
  match update_try env component_id verify_before verify_after verify_logs timeoutArg with
  | .ok r => r
  | .error (e, acc) =>
    { acc with success := false
               message := "Update failed: " ++ e.msg
               error := some e.msg
               duration := env.elapsed }

/-! ## Rollback workflow (`rollback_workflow.py`) -/

/-- Collaborator behaviour for one `execute_rollback` call (the trigger
helper `_trigger_component_rollback` is a `pass` body and cannot raise;
what matters is whether control reaches it, which the embedding counts). -/
structure RollbackEnv where
  hasBackend : Bool
  iniPre : Except PyErr String
  iniPost : Except PyErr String
  navigate : Except PyErr Unit
  pageTitle : Except PyErr Unit
  elapsed : Nat
  endTimeStr : String

/-- Result dict of `execute_rollback`. -/
structure RollbackResult where
  component_id : String
  operation : String
  success : Bool
  message : String
  pre_verification : Option (Option String)
  post_verification : Option (Option String)
  duration : Nat
  end_time : Option String
  error : Option String
deriving DecidableEq, Repr

/-- The `try:` block of `execute_rollback`.  The payloads carry the result
dict as mutated so far and the number of `_trigger_component_rollback`
invocations made. -/
def rollback_try (env : RollbackEnv) (component_id : String)
    (verify_before verify_after : Bool) (_timeoutArg : Option Int) :
    Except (PyErr × RollbackResult × Nat) (RollbackResult × Nat) :=
  let r0 : RollbackResult :=
    { component_id := component_id
      operation := "rollback"
      success := false
      message := ""
      pre_verification := none
      post_verification := none
      duration := 0
      end_time := none
      error := none }
  -- Step 1: validate rollback support; `raise ValueError(...)` when not
  if !can_rollback component_id then
    .error (.valueError (component_id ++ " does not support rollback. " ++
      "Rollback is not available for this component."), r0, 0)
  else
  -- Step 2: pre-rollback verification (safe getter, cannot raise)
  let r1 :=
    if verify_before && env.hasBackend then
      { r0 with pre_verification := some (get_component_version_safe env.hasBackend env.iniPre component_id) }
    else r0
  -- Step 3: navigate + page-title verification
  match env.navigate with
  | .error e => .error (e, r1, 0)
  | .ok _ =>
  match env.pageTitle with
  | .error e => .error (e, r1, 0)
  | .ok _ =>
  -- Step 4: trigger rollback (`pass`): one invocation
  -- Step 5: monitor progress: a plain sleep, cannot raise
  -- Step 6: post-rollback verification (safe getter, cannot raise)
  let r2 :=
    if verify_after && env.hasBackend then
      { r1 with post_verification := some (get_component_version_safe env.hasBackend env.iniPost component_id) }
    else r1
  .ok ({ r2 with duration := env.elapsed
                 end_time := some env.endTimeStr
                 success := true
                 message := component_id ++ " rollback completed successfully" }, 1)

/-- `RollbackWorkflow.execute_rollback`: the `try:` block with its two
handlers — `except ValueError` stores the bare message, `except Exception`
prefixes it with `Rollback failed: `; both leave `end_time` unset.
Returns the result record and the trigger invocation count. -/
def execute_rollback (env : RollbackEnv) (component_id : String)
    (verify_before verify_after : Bool) (timeoutArg : Option Int) :
    RollbackResult × Nat :=
  match rollback_try env component_id verify_before verify_after timeoutArg with
  | .ok (r, n) => (r, n)
  | .error (.valueError m, acc, n) =>
    ({ acc with success := false, message := m, error := some m,
                duration := env.elapsed }, n)
  | .error (e, acc, n) =>
    ({ acc with success := false, message := "Rollback failed: " ++ e.msg,
                error := some e.msg, duration := env.elapsed }, n)

/-! ## Verification workflow (`verification_workflow.py`) -/

/-- One entry of a level's `checks` list: a name, a passed flag, and the
remaining observed key/value pairs of the dict. -/
structure ChkEntry where
  name : String
  passed : Bool
  info : List (String × String)
deriving DecidableEq, Repr

/-- Per-level verdict dict produced by `_verify_ui_level`,
`_verify_backend_level` and `_verify_log_level`; unused extras stay at
their initial values for the levels that lack them. -/
structure LevelResult where
  level : String
  passed : Bool
  checks : List ChkEntry
  error : Option String
  current_version : Option String
  error_count : Nat
  errors : Option (List String)
deriving DecidableEq, Repr

/-- Collaborator behaviour for one `verify_component_state` or
`verify_system_health` call. -/
structure VerifyEnv where
  hasBackend : Bool
  hasLog : Bool
  navigate : Except PyErr Unit
  pageTitle : Except PyErr Unit
  iniFile : Except PyErr String
  logTail : Except PyErr String
  kernel : Except PyErr String
  serviceRunning : Except PyErr Bool

/-- `_verify_ui_level`: navigate to the update page and verify the page
title; a raise from either gives a failed `Page loaded` check. -/
def verify_ui_level (env : VerifyEnv) : LevelResult :=
  let failed := fun (e : PyErr) =>
    { level := "ui", passed := false,
      checks := [⟨"Page loaded", false, [("error", e.msg)]⟩],
      error := some e.msg, current_version := none, error_count := 0,
      errors := none : LevelResult }
  match env.navigate with
  | .error e => failed e
  | .ok _ =>
    match env.pageTitle with
    | .error e => failed e
    | .ok _ =>
      { level := "ui", passed := true,
        checks := [⟨"Page loaded", true, []⟩],
        error := none, current_version := none, error_count := 0,
        errors := none }

/-- `_verify_backend_level`: read the version from the config file (the
read helper catches its own exceptions, so the surrounding `try:` is
vacuous); a truthy version gives a `Version retrieved` pass plus, when an
expected version was supplied, a `Version match` comparison that decides
`passed`; a falsy version fails the level. -/
def verify_backend_level (env : VerifyEnv) (component_id : String)
    (expected_version : Option String) : LevelResult :=
  let base : LevelResult :=
    { level := "backend", passed := true, checks := [], error := none,
      current_version := none, error_count := 0, errors := none }
  match get_component_version_from_ini component_id env.iniFile with
  | .error e => { base with passed := false, error := some e.msg }
  | .ok version =>
    if strTruthy version then
      let v := version.getD ""
      let retrieved : ChkEntry := ⟨"Version retrieved", true, [("value", v)]⟩
      if strTruthy expected_version then
        let ev := expected_version.getD ""
        let version_match := v == ev
        { base with current_version := version
                    passed := version_match
                    checks := [retrieved,
                      ⟨"Version match", version_match, [("expected", ev), ("actual", v)]⟩] }
      else
        { base with current_version := version, checks := [retrieved] }
    else
      { base with current_version := version
                  passed := false
                  checks := [⟨"Version retrieved", false, [("error", "Version not found")]⟩] }

/-- `_verify_log_level`: `verify_no_errors_for_component` over the log
tail; the tail read can raise, which the level's `try:` converts into a
failed level. -/
def verify_log_level (env : VerifyEnv) (component_id : String) : LevelResult :=
  let base : LevelResult :=
    { level := "log", passed := true, checks := [], error := none,
      current_version := none, error_count := 0, errors := none }
  match env.logTail with
  | .error e => { base with passed := false, error := some e.msg }
  | .ok content =>
    let (no_errors, errs) := verify_no_errors_for_component component_id content
    let withCheck :=
      { base with error_count := errs.length
                  checks := [⟨"No errors", no_errors,
                    [("error_count", toString errs.length)]⟩] }
    if no_errors then withCheck
    else { withCheck with passed := false, errors := some (errs.take 5) }

/-- Top-level result dict of `verify_component_state`. -/
structure VerifyResult where
  component_id : String
  expected_version : Option String
  all_passed : Bool
  ui_verification : Option LevelResult
  backend_verification : Option LevelResult
  log_verification : Option LevelResult
  failures : List String
deriving DecidableEq, Repr

/-- `VerificationWorkflow.verify_component_state`: run each enabled level
(backend and log additionally need their verifier configured), aggregate
`all_passed` and the itemised `failures` labels. -/
def verify_component_state (env : VerifyEnv) (component_id : String)
    (expected_version : Option String)
    (check_ui check_backend check_logs : Bool) : VerifyResult :=
  let r0 : VerifyResult :=
    { component_id := component_id
      expected_version := expected_version
      all_passed := true
      ui_verification := none
      backend_verification := none
      log_verification := none
      failures := [] }
  let r1 :=
    if check_ui then
      let ui := verify_ui_level env
      if !ui.passed then
        { r0 with ui_verification := some ui, all_passed := false,
                  failures := r0.failures ++ ["UI verification failed"] }
      else { r0 with ui_verification := some ui }
    else r0
  let r2 :=
    if check_backend && env.hasBackend then
      let backend := verify_backend_level env component_id expected_version
      if !backend.passed then
        { r1 with backend_verification := some backend, all_passed := false,
                  failures := r1.failures ++ ["Backend verification failed"] }
      else { r1 with backend_verification := some backend }
    else r1
  if check_logs && env.hasLog then
    let lg := verify_log_level env component_id
    if !lg.passed then
      { r2 with log_verification := some lg, all_passed := false,
                failures := r2.failures ++ ["Log verification failed"] }
    else { r2 with log_verification := some lg }
  else r2

/-! ## System health verification (`verify_system_health`) -/

/-- `LogVerification.find_errors_in_log` pattern
(`ERROR|FAIL|Exception|failed|error`, lowercased alternatives). -/
def error_alts : List (List String) :=
  [["error"], ["fail"], ["exception"], ["failed"], ["error"]]

/-- `LogVerification.find_warnings_in_log` pattern (`WARNING|WARN|warn`). -/
def warning_alts : List (List String) :=
  [["warning"], ["warn"], ["warn"]]

/-- Summary dict of `LogVerification.get_log_summary`. -/
structure LogSummary where
  total_lines : Nat
  error_count : Nat
  warning_count : Nat
  errors : List String
  warnings : List String
deriving DecidableEq, Repr

/-- `LogVerification.get_log_summary` on explicit log content. -/
def get_log_summary (content : String) : LogSummary :=
  let errors := search_pattern error_alts content
  let warnings := search_pattern warning_alts content
  { total_lines := (splitOnChar (Char.ofNat 10) content.data).length
    error_count := errors.length
    warning_count := warnings.length
    errors := errors.take 10
    warnings := warnings.take 10 }

/-- Result dict of `verify_system_health`.  `checks_service` is
`(passed, running)`; it stays unset when the service query raises (the
source only appends an issue there).  `checks_logs` is
`(passed, error_count, warning_count)`. -/
structure HealthResult where
  healthy : Bool
  checks_kernel : Option ChkEntry
  checks_service : Option (Bool × Bool)
  checks_logs : Option (Bool × Nat × Nat)
  issues : List String
deriving DecidableEq, Repr

/-- `VerificationWorkflow.verify_system_health`: kernel, service and
recent-log sub-checks, each in its own `try:`; a raise from the log
summary is only logged as a warning — it sets no field and appends no
issue. -/
def verify_system_health (env : VerifyEnv) : HealthResult :=
  let r0 : HealthResult :=
    { healthy := true, checks_kernel := none, checks_service := none,
      checks_logs := none, issues := [] }
  let r1 :=
    if env.hasBackend then
      let ra :=
        match env.kernel with
        | .ok k => { r0 with checks_kernel := some ⟨"kernel", true, [("value", k)]⟩ }
        | .error e =>
          { r0 with healthy := false
                    issues := r0.issues ++ ["Kernel check failed: " ++ e.msg]
                    checks_kernel := some ⟨"kernel", false, [("error", e.msg)]⟩ }
      match env.serviceRunning with
      | .ok running =>
        if !running then
          { ra with checks_service := some (running, running), healthy := false,
                    issues := ra.issues ++ ["IWSS service is not running"] }
        else { ra with checks_service := some (running, running) }
      | .error e =>
        { ra with healthy := false,
                  issues := ra.issues ++ ["Service check failed: " ++ e.msg] }
    else r0
  if env.hasLog then
    match env.logTail with
    | .ok content =>
      let s := get_log_summary content
      let rb :=
        { r1 with checks_logs := some (s.error_count == 0, s.error_count, s.warning_count) }
      if s.error_count > 0 then
        { rb with healthy := false,
                  issues := rb.issues ++ [toString s.error_count ++ " errors in recent logs"] }
      else rb
    | .error _ => r1
  else r1

/-! ## Claim C1 -/

/-- Claim C1 (code bug): `verify_complete_update_cycle` is supposed to
require, when an `expected_version` is given, that some extracted
version-change record ends in it.  On a log whose lines satisfy the
started, completed and no-errors checks but contain no version change at
all, the function still returns `success = true`: the overall-success
recomputation at the end of the function overwrites the
`success = success and version_match` assignment of check 4, dropping the
version check from the verdict (and the message even reports the cycle as
verified while the `version_changed` sub-check is recorded as failed). -/
theorem C1_cycle_success_ignores_version_check :
    (verify_complete_update_cycle "PTN" (some "9.9.9.9")
        ("Starting PTN update" ++ "\n" ++ "PTN update success")).success = true ∧
    (verify_complete_update_cycle "PTN" (some "9.9.9.9")
        ("Starting PTN update" ++ "\n" ++ "PTN update success")).version_changed =
      some { passed := false, expected := "9.9.9.9", changes := [] } ∧
    (verify_complete_update_cycle "PTN" (some "9.9.9.9")
        ("Starting PTN update" ++ "\n" ++ "PTN update success")).message =
      "PTN update cycle verified successfully" := by
  refine ⟨?_, ?_, ?_⟩ <;> rfl

/-! ## Claim C2 -/

/-- Helper: looking a key up in an association list none of whose keys is
the key in question yields nothing. -/
theorem lookup_eq_none_of_not_mem {β : Type} (l : List (String × β)) (id : String)
    (h : id ∉ l.map Prod.fst) : l.lookup id = none := by
  induction l with
  | nil => rfl
  | cons p t ih =>
    simp only [List.map_cons, List.mem_cons, not_or] at h
    have hne : (id == p.1) = false := by
      simp only [beq_eq_false_iff_ne]
      exact h.1
    cases p with
    | mk k v =>
      simp only [List.lookup]
      simp only [Prod.fst] at hne
      rw [hne]
      exact ih h.2

/-- The nine registered component ids (keys of `COMPONENT_INI_KEYS`,
identical to the keys of `ROLLBACK_SUPPORTED`). -/
def registered_ids : List String := COMPONENT_INI_KEYS.map Prod.fst

/-- Counterexample to claim C2: for the unregistered id `SHIELD`,
`can_rollback` does not raise — it returns the default boolean `false` —
and the component-version lookup does not raise either — it returns
`.ok none` even on a config file that contains a matching-looking key. -/
theorem C2_cex_unregistered_id_defaults :
    can_rollback "SHIELD" = false ∧
    get_component_version_from_ini "SHIELD" (.ok "SHIELDVersion=9") = .ok none := by
  exact ⟨rfl, rfl⟩

/-- Claim C2 (corrected): for every id outside the nine registered ones,
the lookups are silent defaults, not errors: `can_rollback` returns
`false` (the `dict.get` default) and `get_component_version_from_ini`
returns `.ok none` whatever the config file read does; neither raises. -/
theorem C2_unregistered_id_silent_default (id : String)
    (h : id ∉ registered_ids) :
    can_rollback id = false ∧
    ∀ iniFile : Except PyErr String,
      get_component_version_from_ini id iniFile = .ok none := by
  have hkeys : COMPONENT_INI_KEYS.lookup id = none :=
    lookup_eq_none_of_not_mem _ _ h
  have hrb : ROLLBACK_SUPPORTED.lookup id = none := by
    apply lookup_eq_none_of_not_mem
    intro hmem
    exact h (by revert hmem; simp [registered_ids, ROLLBACK_SUPPORTED, COMPONENT_INI_KEYS])
  refine ⟨?_, ?_⟩
  · simp [can_rollback, hrb]
  · intro iniFile
    simp [get_component_version_from_ini, hkeys]

/-- Witness for C2 at the concrete unregistered id `SHIELD`. -/
theorem C2_witness :
    can_rollback "SHIELD" = false ∧
    get_component_version_from_ini "SHIELD" (.error (.other "x")) = .ok none := by
  have h := C2_unregistered_id_silent_default "SHIELD" (by decide)
  exact ⟨h.1, h.2 _⟩

/-! ## Claim C3 -/

/-- Counterexample to claim C3: when the config file is missing, the
component-version read does not raise the file-not-found error — the
`except Exception` inside `get_component_version_from_ini` swallows it and
the call returns `.ok none`, the same absent value as a missing key. -/
theorem C3_cex_missing_file_returns_none :
    get_component_version_from_ini "PTN"
      (.error (.fileNotFound "INI file not found")) = .ok none := by
  rfl

/-- Claim C3 (corrected): for a registered component, a present config
file with the descriptor key missing yields the absent value without an
error; a missing config file makes the inner `get_ini_file_content`
re-raise `FileNotFoundError`, but `get_component_version_from_ini`
catches every exception and also returns the absent value — the two
not-found cases are indistinguishable at the version-read level. -/
theorem C3_version_read_not_found_cases :
    (∀ content : String,
      iniGet (parse_ini_file content) "PTNVersion" = none →
      get_component_version_from_ini "PTN" (.ok content) = .ok none) ∧
    (∀ e : PyErr,
      get_ini_file_content (.error e) = .error e ∧
      get_component_version_from_ini "PTN" (.error e) = .ok none) := by
  constructor
  · intro content h
    simp [get_component_version_from_ini, get_ini_file_content,
      COMPONENT_INI_KEYS, List.lookup, h]
  · intro e
    exact ⟨rfl, rfl⟩

/-- Witness for C3: a config file that exists but lacks `PTNVersion`. -/
theorem C3_witness :
    get_component_version_from_ini "PTN" (.ok "EngineVersion=2.0") = .ok none := by
  exact C3_version_read_not_found_cases.1 "EngineVersion=2.0" rfl

/-! ## Claim C5 -/

/-- Rollback environment whose UI navigation raises a `ValueError`
carrying exactly the not-supported message text. -/
def envC5_generic_failure : RollbackEnv :=
  { hasBackend := false
    iniPre := .ok ""
    iniPost := .ok ""
    navigate := .error (.valueError ("TMUFEENG does not support rollback. " ++
      "Rollback is not available for this component."))
    pageTitle := .ok ()
    elapsed := 4
    endTimeStr := "t1" }

/-- Benign rollback environment (no collaborator raises). -/
def envC5_plain : RollbackEnv :=
  { hasBackend := false
    iniPre := .ok ""
    iniPost := .ok ""
    navigate := .ok ()
    pageTitle := .ok ()
    elapsed := 4
    endTimeStr := "t1" }

/-- Counterexample to claim C5: the result record has no distinct
not-supported outcome value.  The not-supported TMUFEENG result and a
generic collaborator failure on PTN agree on the success flag and can even
agree on every outcome-bearing field (`success`, `message`, `error`,
`duration`) — they differ only in the component id, so the not-supported
outcome is conflated with generic failure. -/
theorem C5_cex_not_supported_conflated :
    (execute_rollback envC5_plain "TMUFEENG" false false none).fst.success =
      (execute_rollback envC5_generic_failure "PTN" false false none).fst.success ∧
    (execute_rollback envC5_plain "TMUFEENG" false false none).fst.message =
      (execute_rollback envC5_generic_failure "PTN" false false none).fst.message ∧
    (execute_rollback envC5_plain "TMUFEENG" false false none).fst.error =
      (execute_rollback envC5_generic_failure "PTN" false false none).fst.error ∧
    (execute_rollback envC5_plain "TMUFEENG" false false none).fst.success = false := by
  refine ⟨rfl, rfl, rfl, rfl⟩

/-- Claim C5 (corrected): rolling back TMUFEENG fails upfront with
`success = false` and the message/error text
`TMUFEENG does not support rollback. Rollback is not available for this
component.` — the same generic `success = false` shape as any other
failure, distinguished from one only by that message text — and the UI
rollback trigger is never invoked (invocation count 0), for every
collaborator behaviour and flag combination. -/
theorem C5_tmufeeng_rollback_not_supported (env : RollbackEnv)
    (verify_before verify_after : Bool) (timeoutArg : Option Int) :
    execute_rollback env "TMUFEENG" verify_before verify_after timeoutArg =
      ({ component_id := "TMUFEENG"
         operation := "rollback"
         success := false
         message := "TMUFEENG does not support rollback. " ++
           "Rollback is not available for this component."
         pre_verification := none
         post_verification := none
         duration := env.elapsed
         end_time := none
         error := some ("TMUFEENG does not support rollback. " ++
           "Rollback is not available for this component.") }, 0) := by
  rfl

/-! ## Claim C8 -/

/-- Update environment for C8: backend configured, lock file never
clears, the wall clock reads 301 elapsed seconds at any finalisation
point. -/
def envC8 : UpdateEnv :=
  { hasBackend := true
    hasLog := false
    iniPre := .ok "PTNVersion=1.0.0.0"
    iniPost := .ok "PTNVersion=1.0.0.0"
    navigate := .ok ()
    pageTitle := .ok ()
    lock := fun _ => true
    logTail := .ok ""
    elapsed := 301
    endTimeStr := "2026-01-01T00:05:01" }

/-- Claim C8 (code bug): on the timeout outcome `execute_normal_update`
returns the result record via an early `return` that skips finalisation:
even though 301 seconds have elapsed, the returned record still carries
the initial `duration = 0` and has no `end_time` at all — a partially
filled record, unlike the success and failure outcomes which both set
`duration` (and success also `end_time`). -/
theorem C8_timeout_record_not_finalized :
    execute_normal_update envC8 "PTN" true true true none =
      { component_id := "PTN"
        update_type := "normal"
        success := false
        message := "Update timeout after 300s"
        pre_verification := some (some "1.0.0.0")
        post_verification := none
        log_verification := none
        duration := 0
        end_time := none
        error := none } ∧ envC8.elapsed = 301 := by
  exact ⟨rfl, rfl⟩

/-! ## Claim C4 -/

/-- Claim C4 (confirmed): for every collaborator behaviour — including
ones that raise at any step — `execute_normal_update` and
`execute_rollback` return the structured result record: whenever the
`try:` body ends in a raised exception, the top-level call still returns a
record, with the exception message captured in its `error`/`message`
failure fields; when the body returns normally, that record is passed
through.  No exception crosses the operation boundary. -/
theorem C4_operations_never_propagate (envU : UpdateEnv) (envR : RollbackEnv)
    (component_id : String) (vb va vl : Bool) (t : Option Int) (e : PyErr)
    (accU : UpdateResult) (accR : RollbackResult) (n : Nat) :
    (update_try envU component_id vb va vl t = .error (e, accU) →
      execute_normal_update envU component_id vb va vl t =
        { accU with success := false, message := "Update failed: " ++ e.msg,
                    error := some e.msg, duration := envU.elapsed }) ∧
    (update_try envU component_id vb va vl t = .ok accU →
      execute_normal_update envU component_id vb va vl t = accU) ∧
    (rollback_try envR component_id vb va t = .error (e, accR, n) →
      (execute_rollback envR component_id vb va t).fst.success = false ∧
      (execute_rollback envR component_id vb va t).fst.error = some e.msg ∧
      (execute_rollback envR component_id vb va t).snd = n) ∧
    (rollback_try envR component_id vb va t = .ok (accR, n) →
      execute_rollback envR component_id vb va t = (accR, n)) := by
  refine ⟨?_, ?_, ?_, ?_⟩
  · intro h
    simp [execute_normal_update, h]
  · intro h
    simp [execute_normal_update, h]
  · intro h
    cases e <;> simp [execute_rollback, h, PyErr.msg]
  · intro h
    simp [execute_rollback, h]

/-- Update environment for the C4 witness: navigation raises. -/
def envC4U : UpdateEnv :=
  { hasBackend := false
    hasLog := false
    iniPre := .ok ""
    iniPost := .ok ""
    navigate := .error (.other "boom")
    pageTitle := .ok ()
    lock := fun _ => false
    logTail := .ok ""
    elapsed := 3
    endTimeStr := "t" }

/-- Rollback environment for the C4 witness: navigation raises. -/
def envC4R : RollbackEnv :=
  { hasBackend := false
    iniPre := .ok ""
    iniPost := .ok ""
    navigate := .error (.other "bam")
    pageTitle := .ok ()
    elapsed := 3
    endTimeStr := "t" }

/-- Witness for C4: concrete runs in which the try-bodies raise, whose
results carry the exception message in the `error` field. -/
theorem C4_witness :
    (execute_normal_update envC4U "PTN" false false false none).error = some "boom" ∧
    (execute_rollback envC4R "PTN" false false none).fst.error = some "bam" := by
  constructor
  · have h := (C4_operations_never_propagate envC4U envC4R "PTN" false false false none
      (.other "boom") ⟨"PTN", "normal", false, "", none, none, none, 0, none, none⟩
      ⟨"PTN", "rollback", false, "", none, none, 0, none, none⟩ 0).1 rfl
    rw [h]
    rfl
  · exact ((C4_operations_never_propagate envC4U envC4R "PTN" false false false none
      (.other "bam") ⟨"PTN", "normal", false, "", none, none, none, 0, none, none⟩
      ⟨"PTN", "rollback", false, "", none, none, 0, none, none⟩ 0).2.2.1 rfl).2.1

/-! ## Claims C6 and C10: lock-file polling -/

/-- Helper for C6: the elapsed time at which the polling loop returns
never exceeds `timeout.toNat + check_interval`, whatever the fuel, as long
as it starts within that bound. -/
theorem wait_go_elapsed_le (lock : Nat → Bool) (timeout : Int) (check_interval : Nat) :
    ∀ fuel elapsed : Nat, elapsed ≤ timeout.toNat + check_interval →
      (wait_go lock timeout check_interval fuel elapsed).2.1 ≤
        timeout.toNat + check_interval := by
  intro fuel
  induction fuel with
  | zero => intro e he; simpa [wait_go] using he
  | succ f ih =>
    intro e he
    simp only [wait_go]
    split
    · next hc =>
      split
      · simpa using he
      · simp only
        apply ih
        have : e < timeout.toNat := by omega
        omega
    · next hc => simpa using he

/-- Helper for C6: with a positive poll interval and enough fuel, the loop
returns `true` exactly when some poll — they happen at elapsed times
`elapsed, elapsed + i, elapsed + 2i, …` — falls strictly inside the
timeout window and observes the lock absent. -/
theorem wait_go_true_iff (lock : Nat → Bool) (timeout : Int) (check_interval : Nat)
    (h : 0 < check_interval) :
    ∀ fuel elapsed : Nat, timeout.toNat < elapsed + fuel →
      ((wait_go lock timeout check_interval fuel elapsed).1 = true ↔
        ∃ k : Nat, ((elapsed + k * check_interval : Nat) : Int) < timeout ∧
          lock (elapsed + k * check_interval) = false) := by
  intro fuel
  induction fuel with
  | zero =>
    intro e hf
    simp only [wait_go]
    apply iff_of_false
    · simp
    · rintro ⟨k, hk, _⟩
      have h1 : (e : Int) ≤ ((e + k * check_interval : Nat) : Int) := by
        exact_mod_cast Nat.le_add_right e (k * check_interval)
      omega
  | succ f ih =>
    intro e hf
    simp only [wait_go]
    by_cases hc : (e : Int) < timeout
    · rw [if_pos hc]
      by_cases hl : lock e
      · rw [if_neg (by simp [hl])]
        simp only
        rw [ih (e + check_interval) (by omega)]
        constructor
        · rintro ⟨k, hk, hlk⟩
          have harith : e + (k + 1) * check_interval = e + check_interval + k * check_interval := by
            ring
          exact ⟨k + 1, by rw [harith]; exact hk, by rw [harith]; exact hlk⟩
        · rintro ⟨k, hk, hlk⟩
          cases k with
          | zero =>
            exfalso
            simp only [Nat.zero_mul, Nat.add_zero] at hlk
            rw [hl] at hlk
            cases hlk
          | succ k =>
            have harith : e + (k + 1) * check_interval = e + check_interval + k * check_interval := by
              ring
            exact ⟨k, by rw [← harith]; exact hk, by rw [← harith]; exact hlk⟩
      · have hl' : lock e = false := by simpa using hl
        rw [if_pos (by simp [hl'])]
        apply iff_of_true rfl
        exact ⟨0, by simpa using hc, by simpa using hl'⟩
    · rw [if_neg hc]
      apply iff_of_false
      · simp
      · rintro ⟨k, hk, _⟩
        have h1 : (e : Int) ≤ ((e + k * check_interval : Nat) : Int) := by
          exact_mod_cast Nat.le_add_right e (k * check_interval)
        omega

/-- Claim C6 (confirmed, under the idealised timing of the embedding and
a positive poll interval): `wait_for_lock_file_removal` returns `true`
iff the lock is observed absent at some poll strictly before the timeout
elapses; if the lock never clears it returns `false` — a value, not an
exception, since every collaborator observation is total here — and it
never blocks longer than the timeout plus one poll interval. -/
theorem C6_wait_for_lock_clear_spec (lock : Nat → Bool) (timeout : Int)
    (check_interval : Nat) (h : 0 < check_interval) :
    ((wait_for_lock_file_removal lock timeout check_interval).1 = true ↔
      ∃ k : Nat, ((k * check_interval : Nat) : Int) < timeout ∧
        lock (k * check_interval) = false) ∧
    ((∀ t, lock t = true) →
      (wait_for_lock_file_removal lock timeout check_interval).1 = false) ∧
    (wait_for_lock_file_removal lock timeout check_interval).2.1 ≤
      timeout.toNat + check_interval := by
  have hiff := wait_go_true_iff lock timeout check_interval h
    (timeout.toNat + 1) 0 (by omega)
  simp only [Nat.zero_add] at hiff
  refine ⟨hiff, ?_, ?_⟩
  · intro hall
    by_contra hne
    have htrue : (wait_for_lock_file_removal lock timeout check_interval).1 = true := by
      revert hne
      cases (wait_for_lock_file_removal lock timeout check_interval).1 <;> simp
    obtain ⟨k, _, hlk⟩ := hiff.mp htrue
    rw [hall] at hlk
    cases hlk
  · exact wait_go_elapsed_le lock timeout check_interval (timeout.toNat + 1) 0 (by omega)

/-- Witness for C6 at a concrete trace (lock never clears, timeout 20,
interval 5). -/
theorem C6_witness :
    (((wait_for_lock_file_removal (fun _ => true) 20 5).1 = true ↔
      ∃ k : Nat, ((k * 5 : Nat) : Int) < 20 ∧ (fun _ : Nat => true) (k * 5) = false) ∧
    ((∀ t, (fun _ : Nat => true) t = true) →
      (wait_for_lock_file_removal (fun _ => true) 20 5).1 = false) ∧
    (wait_for_lock_file_removal (fun _ => true) 20 5).2.1 ≤ (20 : Int).toNat + 5) :=
  C6_wait_for_lock_clear_spec (fun _ => true) 20 5 (by decide)

/-- Claim C10 (confirmed): a timeout of at most zero makes the wait
return `false` with zero lock checks — even when the lock is already
absent — while any positive timeout guarantees at least one check before
any sleep, so an already-clear lock yields `true` after zero blocked
seconds and exactly one poll. -/
theorem C10_wait_timeout_gate (lock : Nat → Bool) (timeout : Int)
    (check_interval : Nat) :
    (timeout ≤ 0 →
      wait_for_lock_file_removal lock timeout check_interval = (false, 0, 0)) ∧
    (0 < timeout →
      1 ≤ (wait_for_lock_file_removal lock timeout check_interval).2.2 ∧
      (lock 0 = false →
        wait_for_lock_file_removal lock timeout check_interval = (true, 0, 1))) := by
  constructor
  · intro ht
    have h0 : timeout.toNat = 0 := by omega
    unfold wait_for_lock_file_removal
    rw [h0]
    simp only [wait_go]
    rw [if_neg (by omega)]
  · intro ht
    unfold wait_for_lock_file_removal
    simp only [wait_go]
    rw [if_pos (show ((0 : Nat) : Int) < timeout by omega)]
    by_cases hl : lock 0
    · rw [if_neg (by simp [hl])]
      constructor
      · simp
      · intro h0
        rw [h0] at hl
        cases hl
    · have hl' : lock 0 = false := by simpa using hl
      rw [if_pos (by simp [hl'])]
      exact ⟨by simp, fun _ => rfl⟩

/-- Witness for C10: a negative timeout returns immediately with no poll;
a positive timeout with an already-clear lock polls once and succeeds
without waiting. -/
theorem C10_witness :
    wait_for_lock_file_removal (fun _ => false) (-2) 3 = (false, 0, 0) ∧
    wait_for_lock_file_removal (fun _ => false) 7 3 = (true, 0, 1) :=
  ⟨(C10_wait_timeout_gate (fun _ => false) (-2) 3).1 (by decide),
   ((C10_wait_timeout_gate (fun _ => false) 7 3).2 (by decide)).2 rfl⟩

/-! ## Claim C7 -/

/-- Claim C7 (confirmed): `verify_component_state` with UI and backend
checks enabled and log checks disabled, a UI level whose navigation and
page-title checks succeed, and a backend whose version read yields some
(nonempty) version `v`: when `v` equals the (nonempty) expected version,
`all_passed = true` with no failures; when it differs, `all_passed =
false` and the failures list is exactly `["Backend verification failed"]`
— in particular it contains no UI-level entry. -/
theorem C7_component_state_backend_decides (env : VerifyEnv)
    (component_id v ev : String)
    (hnav : env.navigate = .ok ()) (htitle : env.pageTitle = .ok ())
    (hbe : env.hasBackend = true)
    (hver : get_component_version_from_ini component_id env.iniFile = .ok (some v))
    (hv : v ≠ "") (hev : ev ≠ "") :
    (v = ev →
      (verify_component_state env component_id (some ev) true true false).all_passed
        = true ∧
      (verify_component_state env component_id (some ev) true true false).failures
        = []) ∧
    (v ≠ ev →
      (verify_component_state env component_id (some ev) true true false).all_passed
        = false ∧
      (verify_component_state env component_id (some ev) true true false).failures
        = ["Backend verification failed"]) := by
  have hvdata : v.data.isEmpty = false := by
    cases hd : v.data.isEmpty
    · rfl
    · exact absurd (String.ext (by simpa using hd)) hv
  have hevdata : ev.data.isEmpty = false := by
    cases hd : ev.data.isEmpty
    · rfl
    · exact absurd (String.ext (by simpa using hd)) hev
  constructor
  · intro hveq
    subst hveq
    simp [verify_component_state, verify_ui_level, verify_backend_level,
      hnav, htitle, hbe, hver, strTruthy, hvdata]
  · intro hvne
    have hbeq : (v == ev) = false := beq_eq_false_iff_ne.mpr hvne
    simp [verify_component_state, verify_ui_level, verify_backend_level,
      hnav, htitle, hbe, hver, strTruthy, hvdata, hevdata, hbeq]

/-- Environment for the C7 witness. -/
def envC7 : VerifyEnv :=
  { hasBackend := true
    hasLog := false
    navigate := .ok ()
    pageTitle := .ok ()
    iniFile := .ok "PTNVersion=1.0.0.0"
    logTail := .ok ""
    kernel := .ok ""
    serviceRunning := .ok true }

/-- Witness for C7: the matching-version scenario of the spec. -/
theorem C7_witness :
    (verify_component_state envC7 "PTN" (some "1.0.0.0") true true false).all_passed
      = true ∧
    (verify_component_state envC7 "PTN" (some "1.0.0.0") true true false).failures
      = [] :=
  (C7_component_state_backend_decides envC7 "PTN" "1.0.0.0" "1.0.0.0"
    rfl rfl rfl rfl (by decide) (by decide)).1 rfl

/-! ## Claim C9 -/

/-- Environment for the C9 counterexample: kernel and service checks are
healthy, but the recent-log sub-check fails by raising. -/
def envC9_cex : VerifyEnv :=
  { hasBackend := true
    hasLog := true
    navigate := .ok ()
    pageTitle := .ok ()
    iniFile := .ok ""
    logTail := .error (.other "log read failed")
    kernel := .ok "5.14.0"
    serviceRunning := .ok true }

/-- Counterexample to claim C9: a recent-log sub-check that fails by
raising an exception neither sets `healthy = false` nor appends an issue
— the handler only logs a warning, so the health result is fully healthy
with an empty issues list (and no `logs` entry in `checks`). -/
theorem C9_cex_log_exception_ignored :
    verify_system_health envC9_cex =
      { healthy := true
        checks_kernel := some ⟨"kernel", true, [("value", "5.14.0")]⟩
        checks_service := some (true, true)
        checks_logs := none
        issues := [] } := by
  rfl

/-- Claim C9 (corrected): with backend and log verifiers configured,
every sub-check is attempted regardless of the others, and the kernel and
service sub-checks set `healthy = false` and append their human-readable
issue whether they fail by value or by raising; the recent-log sub-check
does so only when its summary reports errors — when it fails by raising,
the exception is swallowed and the result is identical to running with
log checking disabled. -/
theorem C9_system_health_aggregation (env : VerifyEnv) (e : PyErr)
    (content : String) (hb : env.hasBackend = true) (hl : env.hasLog = true) :
    (env.logTail = .error e →
      verify_system_health env = verify_system_health { env with hasLog := false }) ∧
    (env.kernel = .error e →
      (verify_system_health env).healthy = false ∧
      ("Kernel check failed: " ++ e.msg) ∈ (verify_system_health env).issues) ∧
    (env.serviceRunning = .ok false →
      (verify_system_health env).healthy = false ∧
      "IWSS service is not running" ∈ (verify_system_health env).issues) ∧
    (env.serviceRunning = .error e →
      (verify_system_health env).healthy = false ∧
      ("Service check failed: " ++ e.msg) ∈ (verify_system_health env).issues) ∧
    (env.logTail = .ok content → 0 < (get_log_summary content).error_count →
      (verify_system_health env).healthy = false ∧
      (toString (get_log_summary content).error_count ++ " errors in recent logs")
        ∈ (verify_system_health env).issues) := by
  refine ⟨?_, ?_, ?_, ?_, ?_⟩
  · intro hlt
    simp [verify_system_health, hb, hl, hlt]
  · intro hk
    cases hsr : env.serviceRunning with
    | ok b =>
      cases hlt : env.logTail with
      | ok c =>
        cases b <;> simp [verify_system_health, hb, hl, hk, hsr, hlt] <;>
          split <;> simp
      | error e2 =>
        cases b <;> simp [verify_system_health, hb, hl, hk, hsr, hlt]
    | error e2 =>
      cases hlt : env.logTail with
      | ok c =>
        simp [verify_system_health, hb, hl, hk, hsr, hlt] <;> split <;> simp
      | error e3 =>
        simp [verify_system_health, hb, hl, hk, hsr, hlt]
  · intro hsr
    cases hk : env.kernel with
    | ok k =>
      cases hlt : env.logTail with
      | ok c =>
        simp [verify_system_health, hb, hl, hk, hsr, hlt] <;> split <;> simp
      | error e2 =>
        simp [verify_system_health, hb, hl, hk, hsr, hlt]
    | error e2 =>
      cases hlt : env.logTail with
      | ok c =>
        simp [verify_system_health, hb, hl, hk, hsr, hlt] <;> split <;> simp
      | error e3 =>
        simp [verify_system_health, hb, hl, hk, hsr, hlt]
  · intro hsr
    cases hk : env.kernel with
    | ok k =>
      cases hlt : env.logTail with
      | ok c =>
        simp [verify_system_health, hb, hl, hk, hsr, hlt] <;> split <;> simp
      | error e2 =>
        simp [verify_system_health, hb, hl, hk, hsr, hlt]
    | error e2 =>
      cases hlt : env.logTail with
      | ok c =>
        simp [verify_system_health, hb, hl, hk, hsr, hlt] <;> split <;> simp
      | error e3 =>
        simp [verify_system_health, hb, hl, hk, hsr, hlt]
  · intro hlt hec
    cases hk : env.kernel with
    | ok k =>
      cases hsr : env.serviceRunning with
      | ok b =>
        cases b <;> simp [verify_system_health, hb, hl, hk, hsr, hlt, hec]
      | error e2 =>
        simp [verify_system_health, hb, hl, hk, hsr, hlt, hec]
    | error e2 =>
      cases hsr : env.serviceRunning with
      | ok b =>
        cases b <;> simp [verify_system_health, hb, hl, hk, hsr, hlt, hec]
      | error e3 =>
        simp [verify_system_health, hb, hl, hk, hsr, hlt, hec]

/-- Environment for the C9 witness: the kernel check raises and the
service reports not running; both are recorded. -/
def envC9_w : VerifyEnv :=
  { hasBackend := true
    hasLog := true
    navigate := .ok ()
    pageTitle := .ok ()
    iniFile := .ok ""
    logTail := .ok ""
    kernel := .error (.other "no ssh")
    serviceRunning := .ok false }

/-- Witness for C9: both the raising kernel check and the failing service
check set unhealthiness and append their issues. -/
theorem C9_witness :
    (verify_system_health envC9_w).healthy = false ∧
    "Kernel check failed: no ssh" ∈ (verify_system_health envC9_w).issues ∧
    "IWSS service is not running" ∈ (verify_system_health envC9_w).issues := by
  have h := C9_system_health_aggregation envC9_w (.other "no ssh") "" rfl rfl
  exact ⟨(h.2.1 rfl).1, (h.2.1 rfl).2, (h.2.2.1 rfl).2⟩

end IWSVA
